import Mathlib

/-!
# ESP32 beacon sniffer: `ScanNetworks/sniffer.c`

A shallow embedding of the promiscuous-mode callback `wifi_sniffer_cb` and the
table it maintains (`networks`, `networkCount`), followed by theorems about
the frame gates, MAC formatting, deduplication, capacity and name handling.

Modelling conventions.
* `uint8_t *payload` is unchecked pointer indexing in the source, so the
  payload is a total byte memory `Nat → Nat`; every read is reduced `% 256`.
  The reported length `sig_len` is a separate field, exactly as in
  `wifi_promiscuous_pkt_t`.
* `NetworkInfo networks[MAX_NETWORKS]` is likewise a total map from index to
  record; the only write is at index `networkCount`, guarded by
  `networkCount < MAX_NETWORKS`.
* Calls into the SDK (`esp_wifi_set_channel`, `delay`, `Serial.printf`) are
  recorded, in program order, in an effect trace returned with the new state.
* `wifi_sniffer_cb_checked` is the same callback with each payload read
  checked against `sig_len`; it is used to state which reads stay inside the
  reported frame.
* `setup`, `loop` and the statements that follow `loop` at file scope touch
  neither `networks` nor `networkCount` and are not modelled.
-/

namespace Sniffer

/-- Table capacity: `#define MAX_NETWORKS 50`. -/
def MAX_NETWORKS : Nat := 50

/-- Monitored channel: `#define CHANNEL 6`. -/
def CHANNEL : Nat := 6

/-- Record kept for each network: `struct NetworkInfo`. -/
structure NetworkInfo where
  mac : String
  ssid : String
  rssi : Int
deriving DecidableEq, Repr

/-- Packet kinds handed to the callback by the driver
(`wifi_promiscuous_pkt_type_t` of the SDK). -/
inductive wifi_promiscuous_pkt_type_t where
  | WIFI_PKT_MGMT
  | WIFI_PKT_CTRL
  | WIFI_PKT_DATA
  | WIFI_PKT_MISC
deriving DecidableEq, Repr

/-- Fields of `wifi_promiscuous_pkt_t` that the callback reads:
`rx_ctrl.sig_len`, `rx_ctrl.rssi` and the bytes behind `payload`. -/
structure wifi_promiscuous_pkt_t where
  sig_len : Nat
  rssi : Int
  payload : Nat → Nat

/-- Global state of the sketch: the array `networks` and `networkCount`. -/
structure State where
  networks : Nat → NetworkInfo
  networkCount : Nat

/-- Observable SDK calls made by the callback. -/
inductive Effect where
  | set_channel (ch : Nat)
  | delay (ms : Nat)
  | serial_printf (ssid mac : String) (rssi : Int)
deriving DecidableEq, Repr

/-- State at start-up: default-constructed records, `networkCount = 0`. -/
def initState : State :=
  { networks := fun _ => { mac := "", ssid := "", rssi := 0 }, networkCount := 0 }

/-- Read of `payload[i]` as a `uint8_t`. -/
def byteAt (payload : Nat → Nat) (i : Nat) : Nat := payload i % 256

/-- One lowercase hexadecimal digit, as printed by `%x`. -/
def hexDigit (n : Nat) : Char :=
  if n < 10 then Char.ofNat (48 + n) else Char.ofNat (87 + n)

/-- Characters printed by `%02x` for a byte value. -/
def hex2 (b : Nat) : List Char := [hexDigit (b / 16), hexDigit (b % 16)]

/-- Characters written by
`sprintf(macStr, "%02x:%02x:%02x:%02x:%02x:%02x", b0, b1, b2, b3, b4, b5)`. -/
def macChars (b0 b1 b2 b3 b4 b5 : Nat) : List Char :=
  hex2 b0 ++ ':' :: hex2 b1 ++ ':' :: hex2 b2 ++ ':' :: hex2 b3 ++ ':' :: hex2 b4
    ++ ':' :: hex2 b5

/-- The string `String(macStr)` built from six byte values. -/
def macStr (b0 b1 b2 b3 b4 b5 : Nat) : String :=
  String.mk (macChars b0 b1 b2 b3 b4 b5)

/-- MAC string of a packet: payload bytes 10 to 15. -/
def macOf (payload : Nat → Nat) : String :=
  macStr (byteAt payload 10) (byteAt payload 11) (byteAt payload 12)
    (byteAt payload 13) (byteAt payload 14) (byteAt payload 15)

/-- Loop of `isAlreadyListed`: compares `networks[i].mac` with `mac` for
`i`, `i+1`, ... over `n` iterations, returning at the first match. -/
def isAlreadyListedFrom (networks : Nat → NetworkInfo) (mac : String) :
    Nat → Nat → Bool
  | _, 0 => false
  | i, n + 1 =>
    if (networks i).mac = mac then true
    else isAlreadyListedFrom networks mac (i + 1) n

/-- Whether a record with this MAC string is stored:
`for (int i = 0; i < networkCount; i++) if (networks[i].mac == mac) return true;`. -/
def isAlreadyListed (s : State) (mac : String) : Bool :=
  isAlreadyListedFrom s.networks mac 0 s.networkCount

/-- Loop `for (ch = ...; ...; ch++) { esp_wifi_set_channel(ch, ...); delay(2000); }`
run for `n` iterations starting at channel `ch`. -/
def channelLoop : Nat → Nat → List Effect
  | _, 0 => []
  | ch, n + 1 => Effect.set_channel ch :: Effect.delay 2000 :: channelLoop (ch + 1) n

/-- Lines 53-62: the name variable `ssid` and the SDK calls made while
computing it, from `ssid_len = payload[37]`. -/
def extractSsid (payload : Nat → Nat) : String × List Effect :=
  let ssid_len := byteAt payload 37
  if 0 < ssid_len ∧ ssid_len < 33 then
    ("", channelLoop 1 13)
  else
    ("<oculto>", [])

/-- Lines 64-70: store the record when there is room. -/
def storeNetwork (s : State) (mac ssid : String) (rssi : Int) : State :=
  if s.networkCount < MAX_NETWORKS then
    { networks :=
        Function.update s.networks s.networkCount { mac := mac, ssid := ssid, rssi := rssi },
      networkCount := s.networkCount + 1 }
  else s

/-- Lines 43-74: the body of the beacon branch. -/
def beaconBranch (s : State) (payload : Nat → Nat) (rssi : Int) : State × List Effect :=
  let mac := macOf payload
  if isAlreadyListed s mac then (s, [])
  else
    let r := extractSsid payload
    (storeNetwork s mac r.1 rssi, r.2 ++ [Effect.serial_printf r.1 mac rssi])

/-- Frame subtype: `(fc0 >> 4) & 0x0F`. -/
def subtypeOf (fc0 : Nat) : Nat := (fc0 >>> 4) &&& 0x0F

/-- Frame type: `(fc0 >> 2) & 0x03`. -/
def frameTypeOf (fc0 : Nat) : Nat := (fc0 >>> 2) &&& 0x03

/-- The promiscuous-mode callback `wifi_sniffer_cb(buf, type)`: new global
state and the SDK calls made. -/
def wifi_sniffer_cb (s : State) (buf : wifi_promiscuous_pkt_t)
    (type : wifi_promiscuous_pkt_type_t) : State × List Effect :=
  if type ≠ wifi_promiscuous_pkt_type_t.WIFI_PKT_MGMT then (s, [])
  else
    let len := buf.sig_len
    let rssi := buf.rssi
    let payload := buf.payload
    if len < 36 then (s, [])
    else
      let fc0 := byteAt payload 0
      let subtype := subtypeOf fc0
      let frame_type := frameTypeOf fc0
      if frame_type = 0 ∧ subtype = 8 then beaconBranch s payload rssi
      else (s, [])

/-- Text of the line printed by `Serial.printf`. -/
def printedLine (ssid mac : String) (rssi : Int) : String :=
  "📶 Red detectada: SSID: " ++ ssid ++ " | MAC: " ++ mac ++ " | RSSI: "
    ++ toString rssi ++ " dBm\n"

/-- A packet the callback treats as a beacon: management type, at least 36
bytes reported, frame type 0 and subtype 8 in byte 0. -/
def qualifying (buf : wifi_promiscuous_pkt_t) (type : wifi_promiscuous_pkt_type_t) : Prop :=
  type = wifi_promiscuous_pkt_type_t.WIFI_PKT_MGMT ∧ 36 ≤ buf.sig_len ∧
    frameTypeOf (byteAt buf.payload 0) = 0 ∧ subtypeOf (byteAt buf.payload 0) = 8

instance (buf : wifi_promiscuous_pkt_t) (type : wifi_promiscuous_pkt_type_t) :
    Decidable (qualifying buf type) := by
  unfold qualifying; infer_instance

/-- Record the callback builds for a packet (MAC string, name, strength). -/
def recordOf (buf : wifi_promiscuous_pkt_t) : NetworkInfo :=
  { mac := macOf buf.payload, ssid := (extractSsid buf.payload).1, rssi := buf.rssi }

/-- State after the callback has handled a list of packets in order. -/
def runAll (s : State) : List (wifi_promiscuous_pkt_t × wifi_promiscuous_pkt_type_t) → State
  | [] => s
  | p :: ps => runAll (wifi_sniffer_cb s p.1 p.2).1 ps

/-- A test packet: payload given by a byte list, zero beyond it. -/
def mkPkt (bytes : List Nat) (len : Nat) (rssi : Int) : wifi_promiscuous_pkt_t :=
  { sig_len := len, rssi := rssi, payload := fun i => bytes.getD i 0 }

/-- A sample management frame: frame control `0x80 0x00`, eight filler
bytes, address `00:1a:2b:3c:4d:k` at offsets 10 to 15, zeros up to offset 36,
name-length byte `n` at offset 37 and 32 letters `A` from offset 38; reported
length 74. -/
def sampleBeacon (k n : Nat) (rssi : Int) : wifi_promiscuous_pkt_t :=
  mkPkt ([0x80, 0] ++ List.replicate 8 0xFF ++ [0x00, 0x1A, 0x2B, 0x3C, 0x4D, k]
    ++ List.replicate 20 0 ++ [0, n] ++ List.replicate 32 0x41) 74 rssi

/-- Fifty-one sample beacons from access points `00:1a:2b:3c:4d:00` to
`00:1a:2b:3c:4d:32`, in that order, each delivered as a management packet. -/
def sampleTrace : List (wifi_promiscuous_pkt_t × wifi_promiscuous_pkt_type_t) :=
  (List.range 51).map
    (fun k => (sampleBeacon k 4 (-40), wifi_promiscuous_pkt_type_t.WIFI_PKT_MGMT))

/-- The six address bytes of a packet, payload offsets 10 to 15. -/
def macBytes (payload : Nat → Nat) : List Nat :=
  [byteAt payload 10, byteAt payload 11, byteAt payload 12,
   byteAt payload 13, byteAt payload 14, byteAt payload 15]

/-- Two-character group for a byte as the specification words it:
zero-padded, lowercase hexadecimal, using the library digit characters. -/
def specHexGroup (b : Nat) : String :=
  String.mk [Nat.digitChar (b / 16), Nat.digitChar (b % 16)]

/-- MAC text as the specification words it: the groups for bytes 10 to 15,
in that order, separated by colons. -/
def specMac (payload : Nat → Nat) : String :=
  String.intercalate ":" ((macBytes payload).map specHexGroup)

/-- Advertised name as the specification words it: the `L` bytes starting
at offset 38, where `L` is the length byte at offset 37. -/
def specName (payload : Nat → Nat) : String :=
  String.mk ((List.range (byteAt payload 37)).map (fun k => Char.ofNat (byteAt payload (38 + k))))

/-- Lines written to the serial port by a trace of SDK calls: one per
`Serial.printf`, in order. -/
def diagLines : List Effect → List String
  | [] => []
  | Effect.serial_printf ssid mac rssi :: es => printedLine ssid mac rssi :: diagLines es
  | Effect.set_channel _ :: es => diagLines es
  | Effect.delay _ :: es => diagLines es

/-- Channel the radio is tuned to after a trace of SDK calls, when it was on
channel `ch` before: each `esp_wifi_set_channel(c, ...)` retunes it to `c`. -/
def channelAfter (ch : Nat) : List Effect → Nat
  | [] => ch
  | Effect.set_channel c :: es => channelAfter c es
  | Effect.serial_printf _ _ _ :: es => channelAfter ch es
  | Effect.delay _ :: es => channelAfter ch es

/-- Bounds-checked read of `payload[i]`: fails when `i` is not below the
reported length `sig_len`. -/
def readByte (buf : wifi_promiscuous_pkt_t) (i : Nat) : Option Nat :=
  if i < buf.sig_len then some (byteAt buf.payload i) else none

/-- The callback with every read of `payload` checked against `sig_len`:
the statements of `wifi_sniffer_cb` in the same order, returning `none` at
the first read that falls outside the reported frame. -/
def wifi_sniffer_cb_checked (s : State) (buf : wifi_promiscuous_pkt_t)
    (type : wifi_promiscuous_pkt_type_t) : Option (State × List Effect) :=
  if type ≠ wifi_promiscuous_pkt_type_t.WIFI_PKT_MGMT then some (s, [])
  else if buf.sig_len < 36 then some (s, [])
  else do
    let fc0 ← readByte buf 0
    if frameTypeOf fc0 = 0 ∧ subtypeOf fc0 = 8 then
      let b10 ← readByte buf 10
      let b11 ← readByte buf 11
      let b12 ← readByte buf 12
      let b13 ← readByte buf 13
      let b14 ← readByte buf 14
      let b15 ← readByte buf 15
      let mac := macStr b10 b11 b12 b13 b14 b15
      if isAlreadyListed s mac then pure (s, [])
      else
        let ssid_len ← readByte buf 37
        let r : String × List Effect :=
          if 0 < ssid_len ∧ ssid_len < 33 then ("", channelLoop 1 13) else ("<oculto>", [])
        pure (storeNetwork s mac r.1 buf.rssi, r.2 ++ [Effect.serial_printf r.1 mac buf.rssi])
    else pure (s, [])

/-- A minimal beacon: frame control `0x80 0x00`, address `00:1a:2b:3c:4d:5e`
at offsets 10 to 15, no tagged parameters; 36 bytes reported, and the bytes
behind the frame read as `junk`. -/
def shortBeacon (junk : Nat) (rssi : Int) : wifi_promiscuous_pkt_t :=
  { sig_len := 36, rssi := rssi,
    payload := fun i =>
      if i < 36 then
        ([0x80, 0] ++ List.replicate 8 0xFF ++ [0x00, 0x1A, 0x2B, 0x3C, 0x4D, 0x5E]).getD i 0
      else junk }

/-! ## Auxiliary lemmas -/

theorem hexDigit_eq_digitChar (n : Nat) (h : n < 16) : hexDigit n = Nat.digitChar n := by
  interval_cases n <;> decide

set_option maxRecDepth 100000 in
theorem gate_bits_lt (n : Nat) (h : n < 256) :
    (frameTypeOf n = 0 ∧ subtypeOf n = 8) ↔ n &&& 0xFC = 0x80 := by
  revert n
  decide

set_option maxRecDepth 100000 in
theorem gate_fields_lt (n : Nat) (h : n < 256) : frameTypeOf n < 4 ∧ subtypeOf n < 16 := by
  revert n
  decide

theorem byteAt_lt (payload : Nat → Nat) (i : Nat) : byteAt payload i < 256 :=
  Nat.mod_lt _ (by decide)

theorem cb_of_qualifying (s : State) (buf : wifi_promiscuous_pkt_t)
    (type : wifi_promiscuous_pkt_type_t) (h : qualifying buf type) :
    wifi_sniffer_cb s buf type = beaconBranch s buf.payload buf.rssi := by
  obtain ⟨h1, h2, h3, h4⟩ := h
  simp [wifi_sniffer_cb, h1, Nat.not_lt.mpr h2, h3, h4]

theorem cb_of_not_gate (s : State) (buf : wifi_promiscuous_pkt_t)
    (type : wifi_promiscuous_pkt_type_t)
    (h : ¬ (frameTypeOf (byteAt buf.payload 0) = 0 ∧ subtypeOf (byteAt buf.payload 0) = 8)) :
    wifi_sniffer_cb s buf type = (s, []) := by
  simp [wifi_sniffer_cb, h]

theorem beaconBranch_effects_ne_nil (s : State) (payload : Nat → Nat) (rssi : Int)
    (h : isAlreadyListed s (macOf payload) = false) :
    (beaconBranch s payload rssi).2 ≠ [] := by
  simp [beaconBranch, h]

theorem hexDigit_injOn : ∀ m < 16, ∀ n < 16, hexDigit m = hexDigit n → m = n := by
  decide

theorem hex2_inj (a b : Nat) (ha : a < 256) (hb : b < 256) (h : hex2 a = hex2 b) : a = b := by
  simp only [hex2, List.cons.injEq, and_true] at h
  have h1 := hexDigit_injOn (a / 16) (by omega) (b / 16) (by omega) h.1
  have h2 := hexDigit_injOn (a % 16) (by omega) (b % 16) (by omega) h.2
  omega

theorem macOf_inj (p q : Nat → Nat) (h : macOf p = macOf q) : macBytes p = macBytes q := by
  have h := congrArg String.data h
  simp only [macOf, macStr, macChars, hex2, List.cons_append, List.nil_append,
    List.cons.injEq, and_true, true_and] at h
  obtain ⟨a1, a2, b1, b2, c1, c2, d1, d2, e1, e2, f1, f2⟩ := h
  have key : ∀ i, hexDigit (byteAt p i / 16) = hexDigit (byteAt q i / 16) →
      hexDigit (byteAt p i % 16) = hexDigit (byteAt q i % 16) → byteAt p i = byteAt q i := by
    intro i u v
    exact hex2_inj _ _ (byteAt_lt p i) (byteAt_lt q i) (by simp [hex2, u, v])
  simp only [macBytes, key 10 a1 a2, key 11 b1 b2, key 12 c1 c2, key 13 d1 d2, key 14 e1 e2,
    key 15 f1 f2]

theorem macOf_congr (p q : Nat → Nat) (h : macBytes p = macBytes q) : macOf p = macOf q := by
  simp only [macBytes, List.cons.injEq, and_true] at h
  obtain ⟨h0, h1, h2, h3, h4, h5⟩ := h
  simp only [macOf, h0, h1, h2, h3, h4, h5]

theorem hex2_eq_spec (b : Nat) (h : b < 256) : String.mk (hex2 b) = specHexGroup b := by
  simp only [hex2, specHexGroup, hexDigit_eq_digitChar (b / 16) (by omega),
    hexDigit_eq_digitChar (b % 16) (by omega)]

/-! ## Frame gates -/

/-- C1 (length gate): whatever the table, the packet type, the bytes and the
signal strength, a packet whose reported length is below 36 leaves `networks`
and `networkCount` as they were and triggers no SDK call, hence no output. -/
theorem C1_length_gate (s : State) (buf : wifi_promiscuous_pkt_t)
    (type : wifi_promiscuous_pkt_type_t) (h : buf.sig_len < 36) :
    wifi_sniffer_cb s buf type = (s, []) := by
  unfold wifi_sniffer_cb
  split
  · rfl
  · simp [h]

/-- C2 (type/subtype gate): for a management packet of reported length at
least 36, the decoded fields lie in the 4 x 16 grid; the pair is (0, 8)
exactly when `fc0 & 0xFC = 0x80`; with that pair the callback runs the
beacon branch, and with any other pair the table is unchanged and nothing is
emitted. For a MAC not yet stored the beacon branch always emits, so the
gate is observable: output is produced exactly for the pair (0, 8). -/
theorem C2_type_subtype_gate (s : State) (buf : wifi_promiscuous_pkt_t)
    (h : 36 ≤ buf.sig_len) :
    (frameTypeOf (byteAt buf.payload 0) < 4 ∧ subtypeOf (byteAt buf.payload 0) < 16) ∧
    ((frameTypeOf (byteAt buf.payload 0) = 0 ∧ subtypeOf (byteAt buf.payload 0) = 8) ↔
      byteAt buf.payload 0 &&& 0xFC = 0x80) ∧
    (byteAt buf.payload 0 &&& 0xFC = 0x80 →
      wifi_sniffer_cb s buf wifi_promiscuous_pkt_type_t.WIFI_PKT_MGMT
        = beaconBranch s buf.payload buf.rssi) ∧
    (¬ (frameTypeOf (byteAt buf.payload 0) = 0 ∧ subtypeOf (byteAt buf.payload 0) = 8) →
      wifi_sniffer_cb s buf wifi_promiscuous_pkt_type_t.WIFI_PKT_MGMT = (s, [])) ∧
    (isAlreadyListed s (macOf buf.payload) = false →
      ((wifi_sniffer_cb s buf wifi_promiscuous_pkt_type_t.WIFI_PKT_MGMT).2 ≠ [] ↔
        (frameTypeOf (byteAt buf.payload 0) = 0 ∧ subtypeOf (byteAt buf.payload 0) = 8))) := by
  have hb := gate_bits_lt (byteAt buf.payload 0) (byteAt_lt _ _)
  refine ⟨gate_fields_lt _ (byteAt_lt _ _), hb, ?_, cb_of_not_gate s buf _, ?_⟩
  · intro hg
    exact cb_of_qualifying s buf _ ⟨rfl, h, hb.mpr hg⟩
  · intro hl
    constructor
    · intro hne
      by_contra hg
      exact hne (by rw [cb_of_not_gate s buf _ hg])
    · intro hg
      rw [cb_of_qualifying s buf _ ⟨rfl, h, hg⟩]
      exact beaconBranch_effects_ne_nil s buf.payload buf.rssi hl

/-- Witness for C1: a 35-byte management frame with beacon bytes is ignored. -/
theorem C1_length_gate_witness :
    (mkPkt [0x80] 35 (-40)).sig_len < 36 ∧
    wifi_sniffer_cb initState (mkPkt [0x80] 35 (-40))
      wifi_promiscuous_pkt_type_t.WIFI_PKT_MGMT = (initState, []) :=
  ⟨by decide, C1_length_gate initState (mkPkt [0x80] 35 (-40)) _ (by decide)⟩

/-- Witness for C2: a probe response (`fc0 = 0x50`, pair (0, 5)) is ignored. -/
theorem C2_type_subtype_gate_witness :
    36 ≤ (mkPkt [0x50] 64 (-40)).sig_len ∧
    wifi_sniffer_cb initState (mkPkt [0x50] 64 (-40))
      wifi_promiscuous_pkt_type_t.WIFI_PKT_MGMT = (initState, []) :=
  ⟨by decide,
   (C2_type_subtype_gate initState (mkPkt [0x50] 64 (-40)) (by decide)).2.2.2.1 (by decide)⟩

/-! ## MAC formatting -/

/-- C3 (MAC formatting): for every payload the MAC string built by the
callback is the colon-separated list of the two-digit, zero-padded, lowercase
hexadecimal groups of bytes 10, 11, 12, 13, 14, 15 in that order; it has
exactly 17 characters, each a lowercase hexadecimal digit or a colon; and
bytes 00 1A 2B 3C 4D 5E at offset 10 give "00:1a:2b:3c:4d:5e". -/
theorem C3_mac_formatting :
    (∀ payload : Nat → Nat,
      macOf payload = specMac payload ∧
      (macOf payload).length = 17 ∧
      (macOf payload).data.all (fun c => "0123456789abcdef:".data.contains c) = true) ∧
    macBytes (sampleBeacon 0x5E 4 (-40)).payload = [0x00, 0x1A, 0x2B, 0x3C, 0x4D, 0x5E] ∧
    macOf (sampleBeacon 0x5E 4 (-40)).payload = "00:1a:2b:3c:4d:5e" := by
  refine ⟨fun payload => ⟨?_, by rfl, ?_⟩, by decide, by decide⟩
  · have e : ∀ i, String.mk (hex2 (byteAt payload i)) = specHexGroup (byteAt payload i) :=
      fun i => hex2_eq_spec _ (byteAt_lt payload i)
    simp only [specMac, macBytes, List.map, ← e]
    rfl
  · have d : ∀ n, n < 16 → ("0123456789abcdef:".data.contains (hexDigit n)) = true := by
      decide
    have hi : ∀ i, byteAt payload i / 16 < 16 := fun i => by
      have := byteAt_lt payload i
      omega
    have lo : ∀ i, byteAt payload i % 16 < 16 := fun i => Nat.mod_lt _ (by decide)
    simp only [macOf, macStr, macChars, hex2, List.cons_append, List.nil_append, List.all_cons,
      List.all_nil, d _ (hi _), d _ (lo _), Bool.and_true, Bool.true_and]
    decide

/-! ## Deduplication and the uniqueness invariant -/

theorem isAlreadyListedFrom_iff (networks : Nat → NetworkInfo) (mac : String) (n : Nat) :
    ∀ i, isAlreadyListedFrom networks mac i n = true ↔
      ∃ k, k < n ∧ (networks (i + k)).mac = mac := by
  induction n with
  | zero => intro i; simp [isAlreadyListedFrom]
  | succ n ih =>
    intro i
    unfold isAlreadyListedFrom
    by_cases hm : (networks i).mac = mac
    · simp only [hm, if_true, true_iff]
      exact ⟨0, Nat.succ_pos n, by simpa using hm⟩
    · rw [if_neg hm, ih (i + 1)]
      constructor
      · rintro ⟨k, hk, e⟩
        exact ⟨k + 1, Nat.succ_lt_succ hk, by rw [← e]; congr 2; omega⟩
      · rintro ⟨k, hk, e⟩
        cases k with
        | zero => exact absurd (by simpa using e) hm
        | succ k => exact ⟨k, Nat.lt_of_succ_lt_succ hk, by rw [← e]; congr 2; omega⟩

theorem isAlreadyListed_iff (s : State) (mac : String) :
    isAlreadyListed s mac = true ↔ ∃ i, i < s.networkCount ∧ (s.networks i).mac = mac := by
  unfold isAlreadyListed
  rw [isAlreadyListedFrom_iff]
  simp

theorem isAlreadyListed_false_iff (s : State) (mac : String) :
    isAlreadyListed s mac = false ↔ ∀ i, i < s.networkCount → (s.networks i).mac ≠ mac := by
  rw [← Bool.not_eq_true, isAlreadyListed_iff]
  simp

theorem cb_of_not_qualifying (s : State) (buf : wifi_promiscuous_pkt_t)
    (type : wifi_promiscuous_pkt_type_t) (h : ¬ qualifying buf type) :
    wifi_sniffer_cb s buf type = (s, []) := by
  unfold wifi_sniffer_cb
  by_cases ht : type = wifi_promiscuous_pkt_type_t.WIFI_PKT_MGMT
  · by_cases hl : buf.sig_len < 36
    · simp [hl]
    · by_cases hg : frameTypeOf (byteAt buf.payload 0) = 0 ∧ subtypeOf (byteAt buf.payload 0) = 8
      · exact absurd ⟨ht, Nat.le_of_not_lt hl, hg⟩ h
      · simp [hg]
  · simp [ht]

theorem beaconBranch_listed (s : State) (payload : Nat → Nat) (rssi : Int)
    (h : isAlreadyListed s (macOf payload) = true) :
    beaconBranch s payload rssi = (s, []) := by
  simp [beaconBranch, h]

theorem beaconBranch_new (s : State) (payload : Nat → Nat) (rssi : Int)
    (h : isAlreadyListed s (macOf payload) = false) :
    beaconBranch s payload rssi =
      (storeNetwork s (macOf payload) (extractSsid payload).1 rssi,
       (extractSsid payload).2 ++
         [Effect.serial_printf (extractSsid payload).1 (macOf payload) rssi]) := by
  simp [beaconBranch, h]

theorem storeNetwork_room (s : State) (mac ssid : String) (rssi : Int)
    (h : s.networkCount < MAX_NETWORKS) :
    storeNetwork s mac ssid rssi =
      { networks := Function.update s.networks s.networkCount
          { mac := mac, ssid := ssid, rssi := rssi },
        networkCount := s.networkCount + 1 } := by
  simp [storeNetwork, h]

theorem storeNetwork_full (s : State) (mac ssid : String) (rssi : Int)
    (h : ¬ s.networkCount < MAX_NETWORKS) : storeNetwork s mac ssid rssi = s := by
  simp [storeNetwork, h]

theorem storeNetwork_listed (s : State) (mac ssid : String) (rssi : Int)
    (h : s.networkCount < MAX_NETWORKS) :
    isAlreadyListed (storeNetwork s mac ssid rssi) mac = true := by
  rw [isAlreadyListed_iff, storeNetwork_room s mac ssid rssi h]
  exact ⟨s.networkCount, Nat.lt_succ_self _, by simp⟩

/-- Every call either leaves the state as it was or appends the packet's
record at index `networkCount`, the latter only with room left and a MAC
string not stored before. -/
theorem cb_state_cases (s : State) (buf : wifi_promiscuous_pkt_t)
    (type : wifi_promiscuous_pkt_type_t) :
    (wifi_sniffer_cb s buf type).1 = s ∨
    (s.networkCount < MAX_NETWORKS ∧
      (∀ i, i < s.networkCount → (s.networks i).mac ≠ macOf buf.payload) ∧
      (wifi_sniffer_cb s buf type).1 =
        { networks := Function.update s.networks s.networkCount (recordOf buf),
          networkCount := s.networkCount + 1 }) := by
  by_cases hq : qualifying buf type
  · rw [cb_of_qualifying s buf type hq]
    cases hl : isAlreadyListed s (macOf buf.payload) with
    | true => left; rw [beaconBranch_listed _ _ _ hl]
    | false =>
      rw [beaconBranch_new _ _ _ hl]
      by_cases hc : s.networkCount < MAX_NETWORKS
      · right
        exact ⟨hc, (isAlreadyListed_false_iff _ _).mp hl, storeNetwork_room _ _ _ _ hc⟩
      · left; exact storeNetwork_full _ _ _ _ hc
  · left; rw [cb_of_not_qualifying s buf type hq]

/-- C4 (deduplication): take a table with room that holds no record with the
MAC of frame `f1`, and a second qualifying frame `f2` with the same six MAC
bytes (any two signal strengths). After `f1` then `f2`, the second call has
changed nothing and emitted nothing; the count is one more than at the
start; the only index below the count whose `mac` is that MAC is the old
count; and the record there carries the strength of `f1`. -/
theorem C4_deduplication (s : State) (f1 f2 : wifi_promiscuous_pkt_t)
    (t1 t2 : wifi_promiscuous_pkt_type_t)
    (hcap : s.networkCount < MAX_NETWORKS)
    (hnew : ∀ i, i < s.networkCount → (s.networks i).mac ≠ macOf f1.payload)
    (hq1 : qualifying f1 t1) (hq2 : qualifying f2 t2)
    (hmac : macBytes f2.payload = macBytes f1.payload) :
    wifi_sniffer_cb (wifi_sniffer_cb s f1 t1).1 f2 t2 = ((wifi_sniffer_cb s f1 t1).1, []) ∧
    (wifi_sniffer_cb (wifi_sniffer_cb s f1 t1).1 f2 t2).1.networkCount = s.networkCount + 1 ∧
    (∀ i, i < (wifi_sniffer_cb (wifi_sniffer_cb s f1 t1).1 f2 t2).1.networkCount →
      (((wifi_sniffer_cb (wifi_sniffer_cb s f1 t1).1 f2 t2).1.networks i).mac
          = macOf f1.payload ↔ i = s.networkCount)) ∧
    ((wifi_sniffer_cb (wifi_sniffer_cb s f1 t1).1 f2 t2).1.networks s.networkCount).rssi
      = f1.rssi := by
  have hl := (isAlreadyListed_false_iff s (macOf f1.payload)).mpr hnew
  have e1 : (wifi_sniffer_cb s f1 t1).1 =
      { networks := Function.update s.networks s.networkCount (recordOf f1),
        networkCount := s.networkCount + 1 } := by
    rw [cb_of_qualifying s f1 t1 hq1, beaconBranch_new _ _ _ hl]
    exact storeNetwork_room _ _ _ _ hcap
  have e2 : wifi_sniffer_cb (wifi_sniffer_cb s f1 t1).1 f2 t2
      = ((wifi_sniffer_cb s f1 t1).1, []) := by
    rw [cb_of_qualifying _ f2 t2 hq2]
    apply beaconBranch_listed
    rw [macOf_congr _ _ hmac, isAlreadyListed_iff, e1]
    exact ⟨s.networkCount, Nat.lt_succ_self _, by simp [recordOf]⟩
  rw [e2, e1]
  refine ⟨rfl, rfl, ?_, by simp [recordOf]⟩
  intro i hi
  by_cases h : i = s.networkCount
  · subst h; simp [recordOf]
  · have hi2 : i < s.networkCount := by
      have : i < s.networkCount + 1 := hi
      omega
    simp [Function.update_noteq h, h, hnew i hi2]

/-- Witness for C4: the same beacon heard at -40 dBm and then at -70 dBm. -/
theorem C4_deduplication_witness :
    wifi_sniffer_cb (wifi_sniffer_cb initState (sampleBeacon 0x5E 4 (-40))
        wifi_promiscuous_pkt_type_t.WIFI_PKT_MGMT).1 (sampleBeacon 0x5E 4 (-70))
        wifi_promiscuous_pkt_type_t.WIFI_PKT_MGMT
      = ((wifi_sniffer_cb initState (sampleBeacon 0x5E 4 (-40))
          wifi_promiscuous_pkt_type_t.WIFI_PKT_MGMT).1, []) ∧
    ((wifi_sniffer_cb (wifi_sniffer_cb initState (sampleBeacon 0x5E 4 (-40))
        wifi_promiscuous_pkt_type_t.WIFI_PKT_MGMT).1 (sampleBeacon 0x5E 4 (-70))
        wifi_promiscuous_pkt_type_t.WIFI_PKT_MGMT).1.networks 0).rssi = -40 :=
  have h := C4_deduplication initState (sampleBeacon 0x5E 4 (-40)) (sampleBeacon 0x5E 4 (-70))
    wifi_promiscuous_pkt_type_t.WIFI_PKT_MGMT wifi_promiscuous_pkt_type_t.WIFI_PKT_MGMT
    (by decide) (fun i hi => absurd hi (Nat.not_lt_zero i)) (by decide) (by decide) (by decide)
  ⟨h.1, h.2.2.2⟩

theorem unique_preserved (s : State) (buf : wifi_promiscuous_pkt_t)
    (type : wifi_promiscuous_pkt_type_t)
    (h : ∀ i j, i < s.networkCount → j < s.networkCount →
      (s.networks i).mac = (s.networks j).mac → i = j) :
    ∀ i j, i < (wifi_sniffer_cb s buf type).1.networkCount →
      j < (wifi_sniffer_cb s buf type).1.networkCount →
      ((wifi_sniffer_cb s buf type).1.networks i).mac
        = ((wifi_sniffer_cb s buf type).1.networks j).mac → i = j := by
  rcases cb_state_cases s buf type with e | ⟨_, hnew, e⟩
  · rw [e]; exact h
  · rw [e]
    intro i j hi hj hm
    have hi1 : i < s.networkCount + 1 := hi
    have hj1 : j < s.networkCount + 1 := hj
    by_cases ei : i = s.networkCount <;> by_cases ej : j = s.networkCount
    · omega
    · have hj2 : j < s.networkCount := by omega
      subst ei
      simp only [Function.update_same, Function.update_noteq ej] at hm
      exact absurd hm.symm (by simpa [recordOf] using hnew j hj2)
    · have hi2 : i < s.networkCount := by omega
      subst ej
      simp only [Function.update_same, Function.update_noteq ei] at hm
      exact absurd hm (by simpa [recordOf] using hnew i hi2)
    · simp only [Function.update_noteq ei, Function.update_noteq ej] at hm
      exact h i j (by omega) (by omega) hm

theorem unique_runAll (ps : List (wifi_promiscuous_pkt_t × wifi_promiscuous_pkt_type_t)) :
    ∀ s : State,
      (∀ i j, i < s.networkCount → j < s.networkCount →
        (s.networks i).mac = (s.networks j).mac → i = j) →
      ∀ i j, i < (runAll s ps).networkCount → j < (runAll s ps).networkCount →
        ((runAll s ps).networks i).mac = ((runAll s ps).networks j).mac → i = j := by
  induction ps with
  | nil => intro s h; exact h
  | cons p ps ih =>
    intro s h
    exact ih _ (unique_preserved s p.1 p.2 h)

/-- C5 (uniqueness invariant): in the state reached from the start-up state
by any finite sequence of callback invocations, on packets of any type and
content, two records at distinct indices below `networkCount` never have the
same `mac`. -/
theorem C5_uniqueness_invariant
    (ps : List (wifi_promiscuous_pkt_t × wifi_promiscuous_pkt_type_t)) (i j : Nat)
    (hi : i < (runAll initState ps).networkCount)
    (hj : j < (runAll initState ps).networkCount) (hij : i ≠ j) :
    ((runAll initState ps).networks i).mac ≠ ((runAll initState ps).networks j).mac := by
  intro hm
  exact hij (unique_runAll ps initState
    (fun a b ha _ _ => absurd ha (Nat.not_lt_zero a)) i j hi hj hm)

/-- Witness for C5: two different access points, the first one heard twice. -/
theorem C5_uniqueness_invariant_witness :
    (0 < (runAll initState
        [(sampleBeacon 1 4 (-40), wifi_promiscuous_pkt_type_t.WIFI_PKT_MGMT),
         (sampleBeacon 1 4 (-50), wifi_promiscuous_pkt_type_t.WIFI_PKT_MGMT),
         (sampleBeacon 2 0 (-60), wifi_promiscuous_pkt_type_t.WIFI_PKT_MGMT)]).networkCount ∧
     1 < (runAll initState
        [(sampleBeacon 1 4 (-40), wifi_promiscuous_pkt_type_t.WIFI_PKT_MGMT),
         (sampleBeacon 1 4 (-50), wifi_promiscuous_pkt_type_t.WIFI_PKT_MGMT),
         (sampleBeacon 2 0 (-60), wifi_promiscuous_pkt_type_t.WIFI_PKT_MGMT)]).networkCount) ∧
    ((runAll initState
        [(sampleBeacon 1 4 (-40), wifi_promiscuous_pkt_type_t.WIFI_PKT_MGMT),
         (sampleBeacon 1 4 (-50), wifi_promiscuous_pkt_type_t.WIFI_PKT_MGMT),
         (sampleBeacon 2 0 (-60), wifi_promiscuous_pkt_type_t.WIFI_PKT_MGMT)]).networks 0).mac
      ≠ ((runAll initState
        [(sampleBeacon 1 4 (-40), wifi_promiscuous_pkt_type_t.WIFI_PKT_MGMT),
         (sampleBeacon 1 4 (-50), wifi_promiscuous_pkt_type_t.WIFI_PKT_MGMT),
         (sampleBeacon 2 0 (-60), wifi_promiscuous_pkt_type_t.WIFI_PKT_MGMT)]).networks 1).mac :=
  ⟨⟨by decide, by decide⟩, C5_uniqueness_invariant _ 0 1 (by decide) (by decide) (by decide)⟩

/-! ## Capacity -/

theorem runAll_append (ps qs : List (wifi_promiscuous_pkt_t × wifi_promiscuous_pkt_type_t)) :
    ∀ s : State, runAll s (ps ++ qs) = runAll (runAll s ps) qs := by
  induction ps with
  | nil => intro s; rfl
  | cons p ps ih => intro s; exact ih _

/-- Qualifying packets with pairwise different MAC strings, no more than the
capacity, fill the table in arrival order starting from the start-up state. -/
theorem runAll_distinct (ps : List (wifi_promiscuous_pkt_t × wifi_promiscuous_pkt_type_t)) :
    (∀ p ∈ ps, qualifying p.1 p.2) →
    ps.Pairwise (fun p q => macOf p.1.payload ≠ macOf q.1.payload) →
    ps.length ≤ MAX_NETWORKS →
    (runAll initState ps).networkCount = ps.length ∧
    (∀ i p, ps[i]? = some p → (runAll initState ps).networks i = recordOf p.1) ∧
    (∀ i, ps.length ≤ i → (runAll initState ps).networks i = initState.networks i) := by
  induction ps using List.reverseRecOn with
  | nil =>
    intro _ _ _
    exact ⟨rfl, fun i p h => by simp at h, fun _ _ => rfl⟩
  | append_singleton qs p ih =>
    intro hq hd hlen
    rw [List.pairwise_append] at hd
    obtain ⟨hd1, -, hd2⟩ := hd
    have hlen1 : qs.length + 1 ≤ MAX_NETWORKS := by simpa using hlen
    obtain ⟨hc, hrec, hrest⟩ :=
      ih (fun q hm => hq q (List.mem_append_left _ hm)) hd1 (by omega)
    have hqp : qualifying p.1 p.2 := hq p (by simp)
    have hnew : isAlreadyListed (runAll initState qs) (macOf p.1.payload) = false := by
      rw [isAlreadyListed_false_iff]
      intro i hi
      rw [hc] at hi
      rw [hrec i qs[i] (List.getElem?_eq_getElem hi)]
      exact hd2 qs[i] (List.getElem?_mem (List.getElem?_eq_getElem hi)) p (by simp)
    have hst : runAll initState (qs ++ [p]) =
        { networks := Function.update (runAll initState qs).networks qs.length (recordOf p.1),
          networkCount := qs.length + 1 } := by
      rw [runAll_append]
      show (wifi_sniffer_cb (runAll initState qs) p.1 p.2).1 = _
      rw [cb_of_qualifying _ _ _ hqp, beaconBranch_new _ _ _ hnew]
      show storeNetwork _ _ _ _ = _
      rw [storeNetwork_room _ _ _ _ (by omega), hc]
      rfl
    rw [hst]
    refine ⟨by simp, ?_, ?_⟩
    · intro i q hiq
      by_cases hi : i < qs.length
      · rw [List.getElem?_append_left hi] at hiq
        simp only [Function.update_noteq (Nat.ne_of_lt hi)]
        exact hrec i q hiq
      · have hi2 : i = qs.length := by
          have := (List.getElem?_eq_some.mp hiq).1
          simp at this
          omega
        subst hi2
        rw [List.getElem?_concat_length] at hiq
        cases hiq
        simp
    · intro i hi
      have hi2 : qs.length + 1 ≤ i := by simpa using hi
      simp only [Function.update_noteq (show i ≠ qs.length by omega)]
      exact hrest i (by omega)

/-- C6 (capacity boundary): starting from the start-up state, after 51
qualifying packets with pairwise distinct MAC bytes the count is 50 and
record `i`, for each `i < 50`, is the record of the `i`-th packet. The 51st
call, made in the state reached after the first 50 packets, prints its line
(name, MAC, strength of the 51st packet) and returns that state unchanged,
so the final table is the table after 50 packets. -/
theorem C6_capacity_boundary
    (ps : List (wifi_promiscuous_pkt_t × wifi_promiscuous_pkt_type_t))
    (hlen : ps.length = 51)
    (hq : ∀ p ∈ ps, qualifying p.1 p.2)
    (hd : ps.Pairwise (fun p q => macBytes p.1.payload ≠ macBytes q.1.payload)) :
    (runAll initState ps).networkCount = 50 ∧
    (∀ i p, i < 50 → ps[i]? = some p → (runAll initState ps).networks i = recordOf p.1) ∧
    (∀ p, ps[50]? = some p →
      wifi_sniffer_cb (runAll initState (ps.take 50)) p.1 p.2 =
        (runAll initState (ps.take 50),
         (extractSsid p.1.payload).2 ++
           [Effect.serial_printf (extractSsid p.1.payload).1 (macOf p.1.payload) p.1.rssi])) ∧
    runAll initState ps = runAll initState (ps.take 50) := by
  have hd2 : ps.Pairwise (fun p q => macOf p.1.payload ≠ macOf q.1.payload) :=
    hd.imp (fun h e => h (macOf_inj _ _ e))
  obtain ⟨p, hp⟩ : ∃ p, ps.drop 50 = [p] := List.length_eq_one.mp (by simp [hlen])
  have hps : ps = ps.take 50 ++ [p] := by rw [← hp, List.take_append_drop]
  have hl50 : (ps.take 50).length = 50 := by simp [hlen]
  obtain ⟨hc, hrec, -⟩ := runAll_distinct (ps.take 50)
    (fun q hm => hq q (List.mem_of_mem_take hm)) (hd2.sublist (List.take_sublist _ _))
    (by rw [hl50]; decide)
  rw [hl50] at hc
  have hqp : qualifying p.1 p.2 := hq p (by rw [hps]; simp)
  have hnew : isAlreadyListed (runAll initState (ps.take 50)) (macOf p.1.payload) = false := by
    rw [isAlreadyListed_false_iff]
    intro i hi
    rw [hc] at hi
    have hi2 : i < (ps.take 50).length := by rw [hl50]; exact hi
    rw [hrec i (ps.take 50)[i] (List.getElem?_eq_getElem hi2)]
    have hpw := hd2
    rw [hps, List.pairwise_append] at hpw
    exact hpw.2.2 _ (List.getElem?_mem (List.getElem?_eq_getElem hi2)) p (by simp)
  have hcall : wifi_sniffer_cb (runAll initState (ps.take 50)) p.1 p.2 =
      (runAll initState (ps.take 50),
       (extractSsid p.1.payload).2 ++
         [Effect.serial_printf (extractSsid p.1.payload).1 (macOf p.1.payload) p.1.rssi]) := by
    rw [cb_of_qualifying _ _ _ hqp, beaconBranch_new _ _ _ hnew,
      storeNetwork_full _ _ _ _ (by rw [hc]; decide)]
  have hfin : runAll initState ps = runAll initState (ps.take 50) := by
    conv_lhs => rw [hps]
    rw [runAll_append]
    show (wifi_sniffer_cb (runAll initState (ps.take 50)) p.1 p.2).1 = _
    rw [hcall]
  refine ⟨by rw [hfin, hc], ?_, ?_, hfin⟩
  · intro i q hi hiq
    rw [hfin]
    apply hrec
    rw [List.getElem?_take_of_lt hi]
    exact hiq
  · intro q hq50
    have e : ps[50]? = some p := by
      conv_lhs => rw [hps]
      have := List.getElem?_concat_length (ps.take 50) p
      rw [hl50] at this
      exact this
    rw [e] at hq50
    cases hq50
    exact hcall

set_option maxRecDepth 1000000 in
/-- Witness for C6: the 51 sample beacons. -/
theorem C6_capacity_boundary_witness :
    sampleTrace.length = 51 ∧
    (runAll initState sampleTrace).networkCount = 50 ∧
    runAll initState sampleTrace = runAll initState (sampleTrace.take 50) :=
  have h := C6_capacity_boundary sampleTrace (by decide) (by decide) (by decide)
  ⟨by decide, h.1, h.2.2.2⟩

/-! ## Name handling -/

theorem extractSsid_hidden (payload : Nat → Nat)
    (h : byteAt payload 37 = 0 ∨ 33 ≤ byteAt payload 37) :
    extractSsid payload = ("<oculto>", []) := by
  have : ¬ (0 < byteAt payload 37 ∧ byteAt payload 37 < 33) := by omega
  simp [extractSsid, this]

theorem extractSsid_inRange (payload : Nat → Nat)
    (h : 1 ≤ byteAt payload 37 ∧ byteAt payload 37 ≤ 32) :
    extractSsid payload = ("", channelLoop 1 13) := by
  have : 0 < byteAt payload 37 ∧ byteAt payload 37 < 33 := by omega
  simp [extractSsid, this]

/-- C7, evaluated on the code: a qualifying beacon whose name-length byte is
32 and whose bytes 38..69 are 32 letters `A`, received with an empty table.
The name stored at index 0 and the name printed are both the empty string;
the 32 bytes at offsets 38..69 are not copied. -/
theorem C7_name_not_extracted :
    qualifying (sampleBeacon 0x5E 32 (-40)) wifi_promiscuous_pkt_type_t.WIFI_PKT_MGMT ∧
    byteAt (sampleBeacon 0x5E 32 (-40)).payload 37 = 32 ∧
    specName (sampleBeacon 0x5E 32 (-40)).payload = "AAAAAAAAAAAAAAAAAAAAAAAAAAAAAAAA" ∧
    ((wifi_sniffer_cb initState (sampleBeacon 0x5E 32 (-40))
        wifi_promiscuous_pkt_type_t.WIFI_PKT_MGMT).1.networks 0).ssid = "" ∧
    (wifi_sniffer_cb initState (sampleBeacon 0x5E 32 (-40))
        wifi_promiscuous_pkt_type_t.WIFI_PKT_MGMT).2 =
      channelLoop 1 13 ++ [Effect.serial_printf "" "00:1a:2b:3c:4d:5e" (-40)] ∧
    ((wifi_sniffer_cb initState (sampleBeacon 0x5E 32 (-40))
        wifi_promiscuous_pkt_type_t.WIFI_PKT_MGMT).1.networks 0).ssid
      ≠ specName (sampleBeacon 0x5E 32 (-40)).payload := by
  refine ⟨by decide, by decide, by decide, by decide, by decide, by decide⟩

/-- C8 (hidden-name sentinel): for a qualifying packet whose MAC is not in
the table, if the byte at offset 37 is 0 or at least 33 the only SDK call is
the print of the line with name "<oculto>", and with room left the record
stored at the old count has `ssid = "<oculto>"`. If the byte is in 1..32 a
single name, different from "<oculto>", is the one printed and, with room
left, the one stored. -/
theorem C8_hidden_sentinel (s : State) (buf : wifi_promiscuous_pkt_t)
    (type : wifi_promiscuous_pkt_type_t) (hq : qualifying buf type)
    (hnew : ∀ i, i < s.networkCount → (s.networks i).mac ≠ macOf buf.payload) :
    ((byteAt buf.payload 37 = 0 ∨ 33 ≤ byteAt buf.payload 37) →
      (wifi_sniffer_cb s buf type).2 =
        [Effect.serial_printf "<oculto>" (macOf buf.payload) buf.rssi] ∧
      (s.networkCount < MAX_NETWORKS →
        ((wifi_sniffer_cb s buf type).1.networks s.networkCount).ssid = "<oculto>")) ∧
    ((1 ≤ byteAt buf.payload 37 ∧ byteAt buf.payload 37 ≤ 32) →
      ∃ name : String, name ≠ "<oculto>" ∧
        Effect.serial_printf name (macOf buf.payload) buf.rssi ∈ (wifi_sniffer_cb s buf type).2 ∧
        (∀ n m r, Effect.serial_printf n m r ∈ (wifi_sniffer_cb s buf type).2 → n = name) ∧
        (s.networkCount < MAX_NETWORKS →
          ((wifi_sniffer_cb s buf type).1.networks s.networkCount).ssid = name)) := by
  have hl := (isAlreadyListed_false_iff s (macOf buf.payload)).mpr hnew
  rw [cb_of_qualifying s buf type hq, beaconBranch_new _ _ _ hl]
  constructor
  · intro h
    rw [extractSsid_hidden _ h]
    refine ⟨rfl, fun hc => ?_⟩
    simp [storeNetwork_room _ _ _ _ hc]
  · intro h
    rw [extractSsid_inRange _ h]
    refine ⟨"", by decide, by simp, ?_, fun hc => ?_⟩
    · intro n m r hmem
      have hch : ∀ k c, Effect.serial_printf n m r ∉ channelLoop c k := by
        intro k
        induction k with
        | zero => intro c; simp [channelLoop]
        | succ k ih => intro c; simp [channelLoop, ih]
      simp only [List.mem_append, List.mem_singleton] at hmem
      rcases hmem with hmem | hmem
      · exact absurd hmem (hch _ _)
      · cases hmem; rfl
    · simp [storeNetwork_room _ _ _ _ hc]

/-- Witness for C8: a beacon with name-length byte 33 heard with an empty
table is stored and printed as "<oculto>". -/
theorem C8_hidden_sentinel_witness :
    qualifying (sampleBeacon 0x5E 33 (-40)) wifi_promiscuous_pkt_type_t.WIFI_PKT_MGMT ∧
    (wifi_sniffer_cb initState (sampleBeacon 0x5E 33 (-40))
        wifi_promiscuous_pkt_type_t.WIFI_PKT_MGMT).2 =
      [Effect.serial_printf "<oculto>" (macOf (sampleBeacon 0x5E 33 (-40)).payload) (-40)] ∧
    ((wifi_sniffer_cb initState (sampleBeacon 0x5E 33 (-40))
        wifi_promiscuous_pkt_type_t.WIFI_PKT_MGMT).1.networks 0).ssid = "<oculto>" :=
  have h := (C8_hidden_sentinel initState (sampleBeacon 0x5E 33 (-40))
    wifi_promiscuous_pkt_type_t.WIFI_PKT_MGMT (by decide)
    (fun i hi => absurd hi (Nat.not_lt_zero i))).1 (Or.inr (by decide))
  ⟨by decide, h.1, h.2 (by decide)⟩

/-! ## Replay and append -/

/-- C9 (idempotence of replay): for every table state and every packet of
any type, handling the packet twice in a row leaves the same table
(`networks` and `networkCount`) as handling it once. -/
theorem C9_replay_idempotent (s : State) (buf : wifi_promiscuous_pkt_t)
    (type : wifi_promiscuous_pkt_type_t) :
    (wifi_sniffer_cb (wifi_sniffer_cb s buf type).1 buf type).1
      = (wifi_sniffer_cb s buf type).1 := by
  by_cases hq : qualifying buf type
  · cases hl : isAlreadyListed s (macOf buf.payload) with
    | true =>
      have e : wifi_sniffer_cb s buf type = (s, []) := by
        rw [cb_of_qualifying s buf type hq, beaconBranch_listed _ _ _ hl]
      rw [e, e]
    | false =>
      by_cases hc : s.networkCount < MAX_NETWORKS
      · have e : (wifi_sniffer_cb s buf type).1 =
            storeNetwork s (macOf buf.payload) (extractSsid buf.payload).1 buf.rssi := by
          rw [cb_of_qualifying s buf type hq, beaconBranch_new _ _ _ hl]
        rw [e, cb_of_qualifying _ buf type hq,
          beaconBranch_listed _ _ _ (storeNetwork_listed _ _ _ _ hc)]
      · have e : (wifi_sniffer_cb s buf type).1 = s := by
          rw [cb_of_qualifying s buf type hq, beaconBranch_new _ _ _ hl]
          exact storeNetwork_full _ _ _ _ hc
        rw [e, e]
  · have e : ∀ s0 : State, wifi_sniffer_cb s0 buf type = (s0, []) :=
      fun s0 => cb_of_not_qualifying s0 buf type hq
    rw [e, e]

/-- C10 (append on free capacity): with `networkCount < 50`, a qualifying
packet whose MAC string is not stored makes the count grow by exactly one,
and the record at the old count has the formatted MAC of bytes 10..15, the
name computed by the callback and the packet's signal strength. -/
theorem C10_append_on_free_capacity (s : State) (buf : wifi_promiscuous_pkt_t)
    (type : wifi_promiscuous_pkt_type_t) (hcap : s.networkCount < 50)
    (hq : qualifying buf type)
    (hnew : ∀ i, i < s.networkCount → (s.networks i).mac ≠ macOf buf.payload) :
    (wifi_sniffer_cb s buf type).1.networkCount = s.networkCount + 1 ∧
    ((wifi_sniffer_cb s buf type).1.networks s.networkCount).mac = macOf buf.payload ∧
    ((wifi_sniffer_cb s buf type).1.networks s.networkCount).ssid = (extractSsid buf.payload).1 ∧
    ((wifi_sniffer_cb s buf type).1.networks s.networkCount).rssi = buf.rssi := by
  have hl := (isAlreadyListed_false_iff s (macOf buf.payload)).mpr hnew
  rw [cb_of_qualifying s buf type hq, beaconBranch_new _ _ _ hl]
  simp [storeNetwork_room _ _ _ _ (show s.networkCount < MAX_NETWORKS from hcap)]

/-- Witness for C10: the first beacon heard after start-up lands at index 0. -/
theorem C10_append_on_free_capacity_witness :
    (wifi_sniffer_cb initState (sampleBeacon 0x5E 0 (-40))
        wifi_promiscuous_pkt_type_t.WIFI_PKT_MGMT).1.networkCount = 1 ∧
    ((wifi_sniffer_cb initState (sampleBeacon 0x5E 0 (-40))
        wifi_promiscuous_pkt_type_t.WIFI_PKT_MGMT).1.networks 0).rssi = -40 :=
  have h := C10_append_on_free_capacity initState (sampleBeacon 0x5E 0 (-40))
    wifi_promiscuous_pkt_type_t.WIFI_PKT_MGMT (by decide) (by decide)
    (fun i hi => absurd hi (Nat.not_lt_zero i))
  ⟨h.1, h.2.2.2⟩

/-! ## Diagnostic output -/

theorem diagLines_append (xs ys : List Effect) :
    diagLines (xs ++ ys) = diagLines xs ++ diagLines ys := by
  induction xs with
  | nil => rfl
  | cons e es ih => cases e <;> simp [diagLines, ih]

theorem diagLines_channelLoop (n : Nat) : ∀ ch, diagLines (channelLoop ch n) = [] := by
  induction n with
  | zero => intro ch; rfl
  | succ n ih => intro ch; simp [channelLoop, diagLines, ih]

theorem diagLines_extractSsid (payload : Nat → Nat) :
    diagLines (extractSsid payload).2 = [] := by
  by_cases h : 1 ≤ byteAt payload 37 ∧ byteAt payload 37 ≤ 32
  · rw [extractSsid_inRange payload h]
    exact diagLines_channelLoop 13 1
  · rw [extractSsid_hidden payload (by omega)]
    rfl

/-- Trace of a call, by cases: the name computation followed by the print
for a qualifying packet with a new MAC, nothing otherwise. -/
theorem cb_effects (s : State) (buf : wifi_promiscuous_pkt_t)
    (type : wifi_promiscuous_pkt_type_t) :
    (wifi_sniffer_cb s buf type).2 =
      if qualifying buf type ∧ isAlreadyListed s (macOf buf.payload) = false then
        (extractSsid buf.payload).2 ++
          [Effect.serial_printf (extractSsid buf.payload).1 (macOf buf.payload) buf.rssi]
      else [] := by
  by_cases hq : qualifying buf type
  · cases hl : isAlreadyListed s (macOf buf.payload) with
    | true => rw [cb_of_qualifying s buf type hq, beaconBranch_listed _ _ _ hl]; simp
    | false => rw [cb_of_qualifying s buf type hq, beaconBranch_new _ _ _ hl]; simp [hq]
  · rw [cb_of_not_qualifying s buf type hq]; simp [hq]

set_option maxRecDepth 1000000 in
/-- C11 (diagnostic output): for every table state and packet, the lines
written to the serial port by the call are exactly one line when the packet
qualifies and its MAC is not in the table (the count plays no part, so also
when the table is full), and that line is the text
"📶 Red detectada: SSID: NAME | MAC: ADDRESS | RSSI: STRENGTH dBm" followed
by a newline, with the name computed by the callback, the MAC string and the
decimal signal strength of that packet; otherwise no line is written, and
indeed no SDK call is made at all. On the sample beacon from
`00:1a:2b:3c:4d:5e` at -40 dBm the line reads `<oculto>` for a hidden name
and an empty name for a 4-byte name; the 51st distinct beacon, heard with
the table full, still prints its line; a repeated beacon prints nothing. -/
theorem C11_diagnostic_output :
    (∀ (s : State) (buf : wifi_promiscuous_pkt_t) (type : wifi_promiscuous_pkt_type_t),
      diagLines (wifi_sniffer_cb s buf type).2 =
        (if qualifying buf type ∧ isAlreadyListed s (macOf buf.payload) = false then
          ["📶 Red detectada: SSID: " ++ (extractSsid buf.payload).1 ++ " | MAC: "
            ++ macOf buf.payload ++ " | RSSI: " ++ toString buf.rssi ++ " dBm\n"]
        else []) ∧
      diagLines (wifi_sniffer_cb s buf type).2 =
        (if qualifying buf type ∧ isAlreadyListed s (macOf buf.payload) = false then
          [printedLine (extractSsid buf.payload).1 (macOf buf.payload) buf.rssi]
        else []) ∧
      (wifi_sniffer_cb s buf type).2 =
        (if qualifying buf type ∧ isAlreadyListed s (macOf buf.payload) = false then
          (extractSsid buf.payload).2 ++
            [Effect.serial_printf (extractSsid buf.payload).1 (macOf buf.payload) buf.rssi]
        else [])) ∧
    diagLines (wifi_sniffer_cb initState (sampleBeacon 0x5E 0 (-40)) wifi_promiscuous_pkt_type_t.WIFI_PKT_MGMT).2 =
      ["📶 Red detectada: SSID: <oculto> | MAC: 00:1a:2b:3c:4d:5e | RSSI: -40 dBm\n"] ∧
    diagLines (wifi_sniffer_cb initState (sampleBeacon 0x5E 4 (-40)) wifi_promiscuous_pkt_type_t.WIFI_PKT_MGMT).2 =
      ["📶 Red detectada: SSID:  | MAC: 00:1a:2b:3c:4d:5e | RSSI: -40 dBm\n"] ∧
    diagLines (wifi_sniffer_cb (runAll initState (sampleTrace.take 50))
        (sampleBeacon 50 0 17) wifi_promiscuous_pkt_type_t.WIFI_PKT_MGMT).2 =
      ["📶 Red detectada: SSID: <oculto> | MAC: 00:1a:2b:3c:4d:32 | RSSI: 17 dBm\n"] ∧
    (runAll initState (sampleTrace.take 50)).networkCount = 50 ∧
    diagLines (wifi_sniffer_cb
        (wifi_sniffer_cb initState (sampleBeacon 0x5E 0 (-40)) wifi_promiscuous_pkt_type_t.WIFI_PKT_MGMT).1
        (sampleBeacon 0x5E 0 (-70)) wifi_promiscuous_pkt_type_t.WIFI_PKT_MGMT).2 = [] := by
  refine ⟨fun s buf type => ?_, by decide, by decide, by decide, by decide, by decide⟩
  have key : diagLines (wifi_sniffer_cb s buf type).2 =
      (if qualifying buf type ∧ isAlreadyListed s (macOf buf.payload) = false then
        [printedLine (extractSsid buf.payload).1 (macOf buf.payload) buf.rssi]
      else []) := by
    rw [cb_effects]
    split
    · rw [diagLines_append, diagLines_extractSsid]
      rfl
    · rfl
  exact ⟨key, key, cb_effects s buf type⟩

/-! ## Frame effect and capacity invariant -/

/-- C12 (no eviction, insertion order kept): for every table state and every
packet, each record at an index below the old count is unchanged, and the
new state is either the old state, or the old state with the count raised by
one, the packet's record written at the old count and every other slot as
before. -/
theorem C12_no_eviction (s : State) (buf : wifi_promiscuous_pkt_t)
    (type : wifi_promiscuous_pkt_type_t) :
    (∀ i, i < s.networkCount → (wifi_sniffer_cb s buf type).1.networks i = s.networks i) ∧
    ((wifi_sniffer_cb s buf type).1 = s ∨
      ((wifi_sniffer_cb s buf type).1.networkCount = s.networkCount + 1 ∧
       (wifi_sniffer_cb s buf type).1.networks s.networkCount = recordOf buf ∧
       (∀ i, i ≠ s.networkCount → (wifi_sniffer_cb s buf type).1.networks i = s.networks i))) := by
  rcases cb_state_cases s buf type with e | ⟨_, _, e⟩
  · rw [e]
    exact ⟨fun _ _ => rfl, Or.inl rfl⟩
  · rw [e]
    refine ⟨fun i hi => ?_, Or.inr ⟨rfl, by simp, fun i hi => ?_⟩⟩
    · simp [Function.update_noteq (Nat.ne_of_lt hi)]
    · simp [Function.update_noteq hi]

/-- Witness for C12: a second access point does not disturb the record of
the first one at index 0. -/
theorem C12_no_eviction_witness :
    0 < (wifi_sniffer_cb initState (sampleBeacon 1 4 (-40)) wifi_promiscuous_pkt_type_t.WIFI_PKT_MGMT).1.networkCount ∧
    (wifi_sniffer_cb (wifi_sniffer_cb initState (sampleBeacon 1 4 (-40)) wifi_promiscuous_pkt_type_t.WIFI_PKT_MGMT).1
        (sampleBeacon 2 0 (-60)) wifi_promiscuous_pkt_type_t.WIFI_PKT_MGMT).1.networks 0
      = (wifi_sniffer_cb initState (sampleBeacon 1 4 (-40)) wifi_promiscuous_pkt_type_t.WIFI_PKT_MGMT).1.networks 0 :=
  ⟨by decide,
   (C12_no_eviction (wifi_sniffer_cb initState (sampleBeacon 1 4 (-40)) wifi_promiscuous_pkt_type_t.WIFI_PKT_MGMT).1
      (sampleBeacon 2 0 (-60)) wifi_promiscuous_pkt_type_t.WIFI_PKT_MGMT).1 0 (by decide)⟩

theorem count_le_preserved (s : State) (buf : wifi_promiscuous_pkt_t)
    (type : wifi_promiscuous_pkt_type_t) (h : s.networkCount ≤ MAX_NETWORKS) :
    (wifi_sniffer_cb s buf type).1.networkCount ≤ MAX_NETWORKS := by
  rcases cb_state_cases s buf type with e | ⟨hc, _, e⟩
  · rw [e]; exact h
  · rw [e]; exact hc

theorem count_le_runAll (ps : List (wifi_promiscuous_pkt_t × wifi_promiscuous_pkt_type_t)) :
    ∀ s : State, s.networkCount ≤ MAX_NETWORKS → (runAll s ps).networkCount ≤ MAX_NETWORKS := by
  induction ps with
  | nil => intro s h; exact h
  | cons p ps ih => intro s h; exact ih _ (count_le_preserved s p.1 p.2 h)

/-- C13 (capacity invariant): in the state reached from start-up by any
finite sequence of calls the count is at most 50 (it is a natural number, so
never negative). A further call on any packet stores only under the guard:
if it changes the count, or the content of any slot, then the old count is
below 50 and the slot changed is the one at the old count. -/
theorem C13_capacity_invariant
    (ps : List (wifi_promiscuous_pkt_t × wifi_promiscuous_pkt_type_t))
    (buf : wifi_promiscuous_pkt_t) (type : wifi_promiscuous_pkt_type_t) :
    (runAll initState ps).networkCount ≤ 50 ∧
    ((wifi_sniffer_cb (runAll initState ps) buf type).1.networkCount
        ≠ (runAll initState ps).networkCount → (runAll initState ps).networkCount < 50) ∧
    (∀ i, (wifi_sniffer_cb (runAll initState ps) buf type).1.networks i
        ≠ (runAll initState ps).networks i →
      i = (runAll initState ps).networkCount ∧ i < 50) := by
  refine ⟨count_le_runAll ps initState (Nat.zero_le _), ?_, ?_⟩
  · intro h
    rcases cb_state_cases (runAll initState ps) buf type with e | ⟨hc, _, _⟩
    · exact absurd (by rw [e]) h
    · exact hc
  · intro i h
    rcases cb_state_cases (runAll initState ps) buf type with e | ⟨hc, _, e⟩
    · exact absurd (by rw [e]) h
    · rw [e] at h
      by_cases hi : i = (runAll initState ps).networkCount
      · exact ⟨hi, by rw [hi]; exact hc⟩
      · exact absurd (by simp [Function.update_noteq hi]) h

/-- Witness for C13: the second beacon of a run is written at index 1. -/
theorem C13_capacity_invariant_witness :
    (wifi_sniffer_cb (runAll initState [(sampleBeacon 1 4 (-40), wifi_promiscuous_pkt_type_t.WIFI_PKT_MGMT)])
        (sampleBeacon 2 0 (-60)) wifi_promiscuous_pkt_type_t.WIFI_PKT_MGMT).1.networks 1
      ≠ (runAll initState [(sampleBeacon 1 4 (-40), wifi_promiscuous_pkt_type_t.WIFI_PKT_MGMT)]).networks 1 ∧
    1 = (runAll initState [(sampleBeacon 1 4 (-40), wifi_promiscuous_pkt_type_t.WIFI_PKT_MGMT)]).networkCount ∧ 1 < 50 :=
  ⟨by decide,
   (C13_capacity_invariant [(sampleBeacon 1 4 (-40), wifi_promiscuous_pkt_type_t.WIFI_PKT_MGMT)]
      (sampleBeacon 2 0 (-60)) wifi_promiscuous_pkt_type_t.WIFI_PKT_MGMT).2.2 1 (by decide)⟩

/-! ## Behaviour of the name branch -/

theorem ssid_values_preserved (s : State) (buf : wifi_promiscuous_pkt_t)
    (type : wifi_promiscuous_pkt_type_t)
    (h : ∀ i, (s.networks i).ssid = "" ∨ (s.networks i).ssid = "<oculto>") :
    ∀ i, ((wifi_sniffer_cb s buf type).1.networks i).ssid = "" ∨
      ((wifi_sniffer_cb s buf type).1.networks i).ssid = "<oculto>" := by
  rcases cb_state_cases s buf type with e | ⟨_, _, e⟩
  · rw [e]; exact h
  · rw [e]
    intro i
    by_cases hi : i = s.networkCount
    · subst hi
      simp only [Function.update_same, recordOf]
      by_cases hr : 1 ≤ byteAt buf.payload 37 ∧ byteAt buf.payload 37 ≤ 32
      · left; rw [extractSsid_inRange _ hr]
      · right; rw [extractSsid_hidden _ (by omega)]
    · simp only [Function.update_noteq hi]
      exact h i

theorem ssid_values_runAll (ps : List (wifi_promiscuous_pkt_t × wifi_promiscuous_pkt_type_t)) :
    ∀ s : State, (∀ i, (s.networks i).ssid = "" ∨ (s.networks i).ssid = "<oculto>") →
      ∀ i, ((runAll s ps).networks i).ssid = "" ∨ ((runAll s ps).networks i).ssid = "<oculto>" := by
  induction ps with
  | nil => intro s h; exact h
  | cons p ps ih => intro s h; exact ih _ (ssid_values_preserved s p.1 p.2 h)

theorem not_mem_channelLoop (n : Nat) :
    ∀ ch ssid mac rssi, Effect.serial_printf ssid mac rssi ∉ channelLoop ch n := by
  induction n with
  | zero => intro ch ssid mac rssi; simp [channelLoop]
  | succ n ih => intro ch ssid mac rssi; simp [channelLoop, ih]

/-- C14 (the name field stays empty): for a qualifying packet with a MAC not
in the table and a name-length byte in 1..32, the one line printed carries
the empty name and, with room left, the record stored has `ssid = ""`; no
byte from offset 38 on enters the result. Consequently, in every state
reached from start-up by any sequence of calls, every `ssid` in the table is
either "" or "<oculto>". -/
theorem C14_name_stays_empty :
    (∀ (s : State) (buf : wifi_promiscuous_pkt_t) (type : wifi_promiscuous_pkt_type_t),
      qualifying buf type →
      (∀ i, i < s.networkCount → (s.networks i).mac ≠ macOf buf.payload) →
      1 ≤ byteAt buf.payload 37 → byteAt buf.payload 37 ≤ 32 →
      Effect.serial_printf "" (macOf buf.payload) buf.rssi ∈ (wifi_sniffer_cb s buf type).2 ∧
      (∀ n m r, Effect.serial_printf n m r ∈ (wifi_sniffer_cb s buf type).2 → n = "") ∧
      (s.networkCount < MAX_NETWORKS →
        ((wifi_sniffer_cb s buf type).1.networks s.networkCount).ssid = "")) ∧
    (∀ (ps : List (wifi_promiscuous_pkt_t × wifi_promiscuous_pkt_type_t)) (i : Nat),
      ((runAll initState ps).networks i).ssid = "" ∨
      ((runAll initState ps).networks i).ssid = "<oculto>") := by
  refine ⟨?_, fun ps i => ssid_values_runAll ps initState (fun _ => Or.inl rfl) i⟩
  intro s buf type hq hnew h1 h2
  have hl := (isAlreadyListed_false_iff s (macOf buf.payload)).mpr hnew
  rw [cb_of_qualifying s buf type hq, beaconBranch_new _ _ _ hl,
    extractSsid_inRange _ ⟨h1, h2⟩]
  refine ⟨by simp, ?_, fun hc => by simp [storeNetwork_room _ _ _ _ hc]⟩
  intro n m r hmem
  simp only [List.mem_append, List.mem_singleton] at hmem
  rcases hmem with hmem | hmem
  · exact absurd hmem (not_mem_channelLoop _ _ _ _ _)
  · cases hmem; rfl

/-- Witness for C14: a beacon announcing a 4-byte name is stored with an
empty name. -/
theorem C14_name_stays_empty_witness :
    qualifying (sampleBeacon 0x5E 4 (-40)) wifi_promiscuous_pkt_type_t.WIFI_PKT_MGMT ∧
    byteAt (sampleBeacon 0x5E 4 (-40)).payload 37 = 4 ∧
    ((wifi_sniffer_cb initState (sampleBeacon 0x5E 4 (-40)) wifi_promiscuous_pkt_type_t.WIFI_PKT_MGMT).1.networks 0).ssid = "" :=
  ⟨by decide, by decide,
   (C14_name_stays_empty.1 initState (sampleBeacon 0x5E 4 (-40)) wifi_promiscuous_pkt_type_t.WIFI_PKT_MGMT (by decide)
      (fun i hi => absurd hi (Nat.not_lt_zero i)) (by decide) (by decide)).2.2 (by decide)⟩

theorem channelLoop_1_13 :
    channelLoop 1 13 =
      [
        Effect.set_channel 1, Effect.delay 2000, Effect.set_channel 2, Effect.delay 2000,
        Effect.set_channel 3, Effect.delay 2000, Effect.set_channel 4, Effect.delay 2000,
        Effect.set_channel 5, Effect.delay 2000, Effect.set_channel 6, Effect.delay 2000,
        Effect.set_channel 7, Effect.delay 2000, Effect.set_channel 8, Effect.delay 2000,
        Effect.set_channel 9, Effect.delay 2000, Effect.set_channel 10, Effect.delay 2000,
        Effect.set_channel 11, Effect.delay 2000, Effect.set_channel 12, Effect.delay 2000,
        Effect.set_channel 13, Effect.delay 2000] := by
  rfl

/-- C15 (channel hopping inside the callback): for a qualifying packet with
a MAC not in the table and a name-length byte in 1..32 the trace of SDK
calls is: select channel 1, wait 2000 ms, select channel 2, wait 2000 ms,
and so on up to channel 13, then the print; a radio that was on the
configured channel 6 is left on channel 13. For every other state and
packet the trace holds no channel selection and no delay (it is empty or the
single print), and the radio stays on channel 6. -/
theorem C15_channel_hopping (s : State) (buf : wifi_promiscuous_pkt_t)
    (type : wifi_promiscuous_pkt_type_t) :
    ((qualifying buf type ∧ isAlreadyListed s (macOf buf.payload) = false ∧
        1 ≤ byteAt buf.payload 37 ∧ byteAt buf.payload 37 ≤ 32) →
      (wifi_sniffer_cb s buf type).2 =
        [
        Effect.set_channel 1, Effect.delay 2000, Effect.set_channel 2, Effect.delay 2000,
        Effect.set_channel 3, Effect.delay 2000, Effect.set_channel 4, Effect.delay 2000,
        Effect.set_channel 5, Effect.delay 2000, Effect.set_channel 6, Effect.delay 2000,
        Effect.set_channel 7, Effect.delay 2000, Effect.set_channel 8, Effect.delay 2000,
        Effect.set_channel 9, Effect.delay 2000, Effect.set_channel 10, Effect.delay 2000,
        Effect.set_channel 11, Effect.delay 2000, Effect.set_channel 12, Effect.delay 2000,
        Effect.set_channel 13, Effect.delay 2000,
         Effect.serial_printf "" (macOf buf.payload) buf.rssi] ∧
      channelAfter CHANNEL (wifi_sniffer_cb s buf type).2 = 13) ∧
    (¬ (qualifying buf type ∧ isAlreadyListed s (macOf buf.payload) = false ∧
        1 ≤ byteAt buf.payload 37 ∧ byteAt buf.payload 37 ≤ 32) →
      (∀ e ∈ (wifi_sniffer_cb s buf type).2, ∃ n m r, e = Effect.serial_printf n m r) ∧
      channelAfter CHANNEL (wifi_sniffer_cb s buf type).2 = 6) := by
  constructor
  · rintro ⟨hq, hl, h1, h2⟩
    have e : (wifi_sniffer_cb s buf type).2 =
        channelLoop 1 13 ++ [Effect.serial_printf "" (macOf buf.payload) buf.rssi] := by
      rw [cb_of_qualifying s buf type hq, beaconBranch_new _ _ _ hl,
        extractSsid_inRange _ ⟨h1, h2⟩]
    rw [e, channelLoop_1_13]
    exact ⟨rfl, rfl⟩
  · intro hn
    rw [cb_effects]
    by_cases hc : qualifying buf type ∧ isAlreadyListed s (macOf buf.payload) = false
    · rw [if_pos hc]
      have hr : byteAt buf.payload 37 = 0 ∨ 33 ≤ byteAt buf.payload 37 := by
        by_contra hx
        exact hn ⟨hc.1, hc.2, by omega, by omega⟩
      rw [extractSsid_hidden _ hr]
      refine ⟨fun e he => ?_, rfl⟩
      simp only [List.nil_append, List.mem_singleton] at he
      exact ⟨_, _, _, he⟩
    · rw [if_neg hc]
      exact ⟨fun e he => absurd he (List.not_mem_nil e), rfl⟩

/-- Witness for C15: a beacon announcing a 4-byte name, heard with an empty
table, leaves the radio on channel 13. -/
theorem C15_channel_hopping_witness :
    qualifying (sampleBeacon 0x5E 4 (-40)) wifi_promiscuous_pkt_type_t.WIFI_PKT_MGMT ∧
    channelAfter CHANNEL (wifi_sniffer_cb initState (sampleBeacon 0x5E 4 (-40)) wifi_promiscuous_pkt_type_t.WIFI_PKT_MGMT).2 = 13 :=
  ⟨by decide,
   ((C15_channel_hopping initState (sampleBeacon 0x5E 4 (-40)) wifi_promiscuous_pkt_type_t.WIFI_PKT_MGMT).1
      ⟨by decide, by decide, by decide, by decide⟩).2⟩

/-! ## Reads and the reported length -/

theorem readByte_of_lt (buf : wifi_promiscuous_pkt_t) (i : Nat) (h : i < buf.sig_len) :
    readByte buf i = some (byteAt buf.payload i) := by
  simp [readByte, h]

theorem readByte_of_ge (buf : wifi_promiscuous_pkt_t) (i : Nat) (h : buf.sig_len ≤ i) :
    readByte buf i = none := by
  simp [readByte, Nat.not_lt.mpr h]

/-- With at least 38 bytes reported no checked read fails, and the checked
callback returns what `wifi_sniffer_cb` returns. -/
theorem cb_checked_of_long (s : State) (buf : wifi_promiscuous_pkt_t)
    (type : wifi_promiscuous_pkt_type_t) (h : 38 ≤ buf.sig_len) :
    wifi_sniffer_cb_checked s buf type = some (wifi_sniffer_cb s buf type) := by
  unfold wifi_sniffer_cb_checked wifi_sniffer_cb
  by_cases ht : type = wifi_promiscuous_pkt_type_t.WIFI_PKT_MGMT
  · have hl : ¬ buf.sig_len < 36 := by omega
    simp only [ht, ne_eq, not_true_eq_false, if_false, hl]
    rw [readByte_of_lt buf 0 (by omega)]
    simp only [Option.bind_eq_bind, Option.some_bind]
    by_cases hg : frameTypeOf (byteAt buf.payload 0) = 0 ∧ subtypeOf (byteAt buf.payload 0) = 8
    · rw [if_pos hg, if_pos hg, readByte_of_lt buf 10 (by omega), readByte_of_lt buf 11 (by omega),
        readByte_of_lt buf 12 (by omega), readByte_of_lt buf 13 (by omega),
        readByte_of_lt buf 14 (by omega), readByte_of_lt buf 15 (by omega),
        readByte_of_lt buf 37 (by omega)]
      simp only [Option.some_bind, beaconBranch, macOf, extractSsid]
      split <;> rfl
    · rw [if_neg hg, if_neg hg]
      rfl
  · simp [ht]

/-- A qualifying packet with a new MAC and only 36 or 37 bytes reported makes
the checked callback fail: the read of `payload[37]` is outside the frame. -/
theorem cb_checked_of_short (s : State) (buf : wifi_promiscuous_pkt_t)
    (type : wifi_promiscuous_pkt_type_t) (hq : qualifying buf type)
    (hl : isAlreadyListed s (macOf buf.payload) = false) (h : buf.sig_len ≤ 37) :
    wifi_sniffer_cb_checked s buf type = none := by
  obtain ⟨ht, h36, hg⟩ := hq
  unfold wifi_sniffer_cb_checked
  have hl36 : ¬ buf.sig_len < 36 := by omega
  simp only [ht, ne_eq, not_true_eq_false, if_false, hl36]
  rw [readByte_of_lt buf 0 (by omega)]
  simp only [Option.bind_eq_bind, Option.some_bind]
  rw [if_pos hg, readByte_of_lt buf 10 (by omega), readByte_of_lt buf 11 (by omega),
    readByte_of_lt buf 12 (by omega), readByte_of_lt buf 13 (by omega),
    readByte_of_lt buf 14 (by omega), readByte_of_lt buf 15 (by omega),
    readByte_of_ge buf 37 h]
  simp only [Option.some_bind]
  unfold macOf at hl
  simp [hl]

/-- C16, evaluated on the code: a qualifying beacon with exactly 36 bytes
reported, received with an empty table. The reads at offsets 0 and 10..15
are inside the frame, the read at offset 37 is not, so the callback with
checked reads fails; the callback itself stores a name that depends on the
byte found behind the frame ("" for 7, "<oculto>" for 0). -/
theorem C16_read_outside_frame :
    qualifying (shortBeacon 7 (-40)) wifi_promiscuous_pkt_type_t.WIFI_PKT_MGMT ∧
    (shortBeacon 7 (-40)).sig_len = 36 ∧
    readByte (shortBeacon 7 (-40)) 0 = some 0x80 ∧
    [10, 11, 12, 13, 14, 15].map (readByte (shortBeacon 7 (-40)))
      = [some 0x00, some 0x1A, some 0x2B, some 0x3C, some 0x4D, some 0x5E] ∧
    isAlreadyListed initState (macOf (shortBeacon 7 (-40)).payload) = false ∧
    readByte (shortBeacon 7 (-40)) 37 = none ∧
    wifi_sniffer_cb_checked initState (shortBeacon 7 (-40)) wifi_promiscuous_pkt_type_t.WIFI_PKT_MGMT = none ∧
    ((wifi_sniffer_cb initState (shortBeacon 7 (-40)) wifi_promiscuous_pkt_type_t.WIFI_PKT_MGMT).1.networks 0).ssid = "" ∧
    ((wifi_sniffer_cb initState (shortBeacon 0 (-40)) wifi_promiscuous_pkt_type_t.WIFI_PKT_MGMT).1.networks 0).ssid = "<oculto>" := by
  refine ⟨by decide, rfl, by decide, by decide, by decide, by decide, ?_, by decide, by decide⟩
  exact cb_checked_of_short initState (shortBeacon 7 (-40)) wifi_promiscuous_pkt_type_t.WIFI_PKT_MGMT (by decide) (by decide)
    (by decide)

/-! ## Injectivity of the MAC text -/

/-- Every record below the count of a state reached from start-up is the
record of one of the packets handled. -/
theorem stored_from_packets
    (ps : List (wifi_promiscuous_pkt_t × wifi_promiscuous_pkt_type_t)) :
    ∀ i, i < (runAll initState ps).networkCount →
      ∃ q ∈ ps, (runAll initState ps).networks i = recordOf q.1 := by
  induction ps using List.reverseRecOn with
  | nil => intro i hi; exact absurd hi (Nat.not_lt_zero i)
  | append_singleton qs p ih =>
    have hrun : runAll initState (qs ++ [p]) =
        (wifi_sniffer_cb (runAll initState qs) p.1 p.2).1 := by
      rw [runAll_append]; rfl
    rw [hrun]
    rcases cb_state_cases (runAll initState qs) p.1 p.2 with e | ⟨_, _, e⟩
    · rw [e]
      intro i hi
      obtain ⟨q, hq, hr⟩ := ih i hi
      exact ⟨q, List.mem_append_left _ hq, hr⟩
    · rw [e]
      intro i hi
      have hi1 : i < (runAll initState qs).networkCount + 1 := hi
      by_cases hc : i = (runAll initState qs).networkCount
      · subst hc
        exact ⟨p, by simp, by simp⟩
      · obtain ⟨q, hq, hr⟩ := ih i (by omega)
        exact ⟨q, List.mem_append_left _ hq, by simp only [Function.update_noteq hc]; exact hr⟩

/-- C17 (MAC formatting is injective): the MAC strings of two payloads are
equal exactly when their six address bytes are equal. Hence, in any state
reached from start-up, `isAlreadyListed` answers true for a packet's MAC
string exactly when a record below the count was stored for a handled
packet with the same six address bytes. -/
theorem C17_mac_injective :
    (∀ p q : Nat → Nat, macOf p = macOf q ↔ macBytes p = macBytes q) ∧
    (∀ (ps : List (wifi_promiscuous_pkt_t × wifi_promiscuous_pkt_type_t))
        (buf : wifi_promiscuous_pkt_t),
      isAlreadyListed (runAll initState ps) (macOf buf.payload) = true ↔
        ∃ i, i < (runAll initState ps).networkCount ∧
          ∃ q ∈ ps, (runAll initState ps).networks i = recordOf q.1 ∧
            macBytes q.1.payload = macBytes buf.payload) := by
  refine ⟨fun p q => ⟨macOf_inj p q, macOf_congr p q⟩, fun ps buf => ?_⟩
  rw [isAlreadyListed_iff]
  constructor
  · rintro ⟨i, hi, hm⟩
    obtain ⟨q, hq, hr⟩ := stored_from_packets ps i hi
    refine ⟨i, hi, q, hq, hr, macOf_inj _ _ ?_⟩
    rw [hr] at hm
    exact hm
  · rintro ⟨i, hi, q, _, hr, hb⟩
    refine ⟨i, hi, ?_⟩
    rw [hr]
    exact macOf_congr _ _ hb

/-! ## Packet-type gate -/

/-- C18 (packet-type gate): for every table state and every packet whose
driver-supplied type is not `WIFI_PKT_MGMT`, whatever its bytes, length and
strength, the state is unchanged and no SDK call is made. -/
theorem C18_packet_type_gate (s : State) (buf : wifi_promiscuous_pkt_t)
    (type : wifi_promiscuous_pkt_type_t)
    (h : type ≠ wifi_promiscuous_pkt_type_t.WIFI_PKT_MGMT) :
    wifi_sniffer_cb s buf type = (s, []) := by
  simp [wifi_sniffer_cb, h]

/-- Witness for C18: the bytes and length of a qualifying beacon, delivered
as a data packet. -/
theorem C18_packet_type_gate_witness :
    qualifying (sampleBeacon 0x5E 4 (-40)) wifi_promiscuous_pkt_type_t.WIFI_PKT_MGMT ∧
    wifi_sniffer_cb initState (sampleBeacon 0x5E 4 (-40))
      wifi_promiscuous_pkt_type_t.WIFI_PKT_DATA = (initState, []) :=
  ⟨by decide,
   C18_packet_type_gate initState (sampleBeacon 0x5E 4 (-40))
     wifi_promiscuous_pkt_type_t.WIFI_PKT_DATA (by decide)⟩

end Sniffer
